import Mathlib

/-
  Verification development for the SmoothScroller module
  (src/smooth-scroller.js): a per-container scroll-animation
  state machine (class SmoothScroller) driving offset updates
  across animation frames, and a cubic Bezier easing solver
  (class CubicBezierSolver, ported from WebKit UnitBezier.h).

  Modelling conventions.
  * JS numbers are modelled by the rationals; the JS values that
    appear in the module (0.25, 0.5, 1e-6, ...) are taken at their
    decimal value.  NaN sentinels (the initial / cleared values of
    the private session fields) are modelled by none in Option.
    JS truthiness of such a field (NaN and 0 are falsy) is the
    predicate truthyNum below.
  * The pending promise resolve callback is modelled by a handle
    identifier (a natural number chosen by the caller of scrollNew);
    resolving it is an explicit event in the emitted trace.
  * DOM side effects (dispatchEvent, scrollLeft writes, scrollTo,
    requestAnimationFrame, cancelAnimationFrame) are events in the
    trace; container offsets live in the state.
  * Math.hypot in getScrollEventData needs a square root, which the
    rationals do not have; the distance field is modelled by its
    square (distanceSq), which carries the same information.
  * The unbounded while loop of the bisection fallback in
    solveCurveX is modelled with explicit fuel; exhausting the fuel
    returns none ("still looping"), and termination of the source
    loop is the statement that some fuel returns some.
  * validateArgument comes from an external utilities module; the
    checks the scroll path relies on are modelled inline: a
    duration below the allowed minimum 0 raises invalidDuration,
    and the CubicBezierSolver constructor raises invalidEasing on a
    malformed control point argument.  A thrown error carries the
    state and trace at the throw point, so that "no mutation before
    a validation throw" is a provable property, not a modelling
    artifact.
-/

namespace SmoothScroller

/-! ## CubicBezierSolver (src/smooth-scroller.js lines 340-480) -/

structure CubicBezierSolver where
  p1x : ℚ
  p1y : ℚ
  p2x : ℚ
  p2y : ℚ
  ax : ℚ
  bx : ℚ
  cx : ℚ
  ay : ℚ
  byv : ℚ
  cy : ℚ
deriving DecidableEq

/-- Coefficient derivation of the constructor (lines 411-417):
cx = 3 p1x, bx = 3 (p2x - p1x) - cx, ax = 1 - cx - bx, same for y. -/
def mkFromPoints (p1x p1y p2x p2y : ℚ) : CubicBezierSolver :=
  let cx := 3 * p1x
  let bx := 3 * (p2x - p1x) - cx
  let ax := 1 - cx - bx
  let cy := 3 * p1y
  let byv := 3 * (p2y - p1y) - cy
  let ay := 1 - cy - byv
  ⟨p1x, p1y, p2x, p2y, ax, bx, cx, ay, byv, cy⟩

/-- Math.floor(Number.MAX_SAFE_INTEGER / 6): 9007199254740991 = 6 * 1501199875790165 + 1. -/
def yLimit : ℚ := 1501199875790165

/-- yLimiter of the constructor (lines 389-392). -/
def yLimiter (y : ℚ) : ℚ := if |y| < yLimit then y else yLimit

/-- The easing keyword map (lines 341-347). -/
def easingKeywordMap (s : String) : Option (List ℚ) :=
  if s = "ease" then some [1/4, 1/10, 1/4, 1]
  else if s = "ease-in" then some [21/50, 0, 1, 1]
  else if s = "ease-out" then some [0, 0, 29/50, 1]
  else if s = "ease-in-out" then some [21/50, 0, 29/50, 1]
  else if s = "linear" then some [0, 0, 1, 1]
  else none

inductive VErr where
  | invalidDuration
  | invalidEasing
deriving DecidableEq

/-- The array branch of the constructor validation (lines 368-396):
length 4, x coordinates within [0, 1], y coordinates run through
yLimiter; anything else raises. -/
def mkSolverFromList : List ℚ → Except VErr CubicBezierSolver
  | [p1x, p1y, p2x, p2y] =>
    if 0 ≤ p1x ∧ p1x ≤ 1 then
      if 0 ≤ p2x ∧ p2x ≤ 1 then
        .ok (mkFromPoints p1x (yLimiter p1y) p2x (yLimiter p2y))
      else .error .invalidEasing
    else .error .invalidEasing
  | _ => .error .invalidEasing

def sampleCurveX (s : CubicBezierSolver) (t : ℚ) : ℚ :=
  ((s.ax * t + s.bx) * t + s.cx) * t

def sampleCurveY (s : CubicBezierSolver) (t : ℚ) : ℚ :=
  ((s.ay * t + s.byv) * t + s.cy) * t

def sampleCurveDerivativeX (s : CubicBezierSolver) (t : ℚ) : ℚ :=
  (3 * s.ax * t + 2 * s.bx) * t + s.cx

/-- The Newton stage of solveCurveX (lines 449-456): at most 8
iterations from t2 = x; returns some on meeting the tolerance, none
on exhausting the budget or on a derivative below 1e-6 (both fall
through to bisection in the source). -/
def newtonLoop (s : CubicBezierSolver) (x eps : ℚ) : ℕ → ℚ → Option ℚ
  | 0, _ => none
  | n + 1, t2 =>
    let x2 := sampleCurveX s t2 - x
    if |x2| < eps then some t2
    else
      let d2 := sampleCurveDerivativeX s t2
      if |d2| < 1 / 1000000 then none
      else newtonLoop s x eps n (t2 - x2 / d2)

/-- The bisection stage of solveCurveX (lines 459-474), with fuel for
the while loop.  The loop guard t0 < t1 is checked first; when it
fails the current t2 is returned (the "Failed" path of the source);
inside the loop the tolerance is checked, the bracket is narrowed,
and t2 becomes (t1 - t0) * 0.5 + t0 of the narrowed bracket. -/
def bisectLoop (s : CubicBezierSolver) (x eps : ℚ) : ℕ → ℚ → ℚ → ℚ → Option ℚ
  | 0, _, _, _ => none
  | n + 1, t0, t1, t2 =>
    if t0 < t1 then
      if |sampleCurveX s t2 - x| < eps then some t2
      else if x > sampleCurveX s t2 then
        bisectLoop s x eps n t2 t1 ((t1 - t2) * (1/2) + t2)
      else
        bisectLoop s x eps n t0 t2 ((t2 - t0) * (1/2) + t0)
    else some t2

/-- solveCurveX (lines 441-475): Newton first, bisection from
t0 = 0, t1 = 1, t2 = x if Newton fails.  (The entry validation
restricts x to [0, 1]; the theorems quantify over that range.) -/
def solveCurveX (s : CubicBezierSolver) (fuel : ℕ) (x eps : ℚ) : Option ℚ :=
  match newtonLoop s x eps 8 x with
  | some t => some t
  | none => bisectLoop s x eps fuel 0 1 x

/-- solve (lines 477-479): sampleCurveY at the solved parameter. -/
def solve (s : CubicBezierSolver) (fuel : ℕ) (x eps : ℚ) : Option ℚ :=
  (solveCurveX s fuel x eps).map (sampleCurveY s)

/-- The solver constructed from the linear control points [0,0,1,1]. -/
def linearSolver : CubicBezierSolver := mkFromPoints 0 0 1 1

/-- A Lipschitz bound for sampleCurveX on [0, 1]. -/
def lipX (s : CubicBezierSolver) : ℚ := 3 * |s.ax| + 2 * |s.bx| + |s.cx|

/-! ## ScrollSession state and events (class SmoothScroller) -/

/-- The value record built by getScrollEventData (lines 293-311).
distanceSq is the square of the Math.hypot distance. -/
structure EventData where
  startPoint : Option ℚ × Option ℚ
  endPoint : Option ℚ × Option ℚ
  distanceSq : Option ℚ
  duration : Option ℚ
  elapsedTime : Option ℚ
  interruptedBy : Option String
deriving DecidableEq

/-- Observable actions of the scroller, in program order. -/
inductive Ev where
  | resolve (handle : ℕ) (data : EventData)
  | scrollStartEvent (data : EventData)
  | scrollEvent (data : EventData)
  | scrollStopEvent (data : EventData)
  | writeLeft (v : ℚ)
  | writeTop (v : ℚ)
  | scrollToCall (x y : ℚ)
  | requestFrame
  | cancelFrame
deriving DecidableEq

/-- The container geometry plus the private fields of a SmoothScroller
instance (lines 83-96).  Fields initialised to NaN are Option, none
standing for NaN; scrollResolve holds the pending handle. -/
structure ScrollState where
  scrollLeft : ℚ
  scrollTop : ℚ
  scrollWidth : ℚ
  clientWidth : ℚ
  scrollHeight : ℚ
  clientHeight : ℚ
  cubicBezierSolver : Option CubicBezierSolver
  scrolling : Bool
  stopScrollingOnPointerDown : Bool
  scrollDistanceX : Option ℚ
  scrollDistanceY : Option ℚ
  scrollDuration : Option ℚ
  scrollElapsedTime : Option ℚ
  scrollEndingPointX : Option ℚ
  scrollEndingPointY : Option ℚ
  scrollResolve : Option ℕ
  scrollStartingPointX : Option ℚ
  scrollStartingPointY : Option ℚ
  scrollStartTime : Option ℚ
deriving DecidableEq

/-- JS truthiness of a number field whose unset value is NaN:
NaN (none) and 0 are falsy. -/
def truthyNum : Option ℚ → Bool
  | none => false
  | some v => if v = 0 then false else true

/-- getScrollEventData (lines 293-311).  The extraData argument of the
source is only ever absent or an interruptedBy record, modelled by the
cause argument (none stands for the null default). -/
def getScrollEventData (st : ScrollState) (cause : Option String) : EventData :=
  { startPoint := (st.scrollStartingPointX, st.scrollStartingPointY)
    endPoint := (st.scrollEndingPointX, st.scrollEndingPointY)
    distanceSq :=
      match st.scrollStartingPointX, st.scrollEndingPointX,
            st.scrollStartingPointY, st.scrollEndingPointY with
      | some sx, some ex, some sy, some ey => some ((sx - ex)^2 + (sy - ey)^2)
      | _, _, _, _ => none
    duration := st.scrollDuration
    elapsedTime := st.scrollElapsedTime
    interruptedBy := cause }

/-- stopScroll (lines 263-291): build the event data, resolve the
pending handle with it, dispatch the stop event, cancel the scheduled
frame, clear every session field. -/
def stopScroll (st : ScrollState) (cause : Option String) : ScrollState × List Ev :=
  let d := getScrollEventData st cause
  let tr :=
    (match st.scrollResolve with
     | some h => [Ev.resolve h d]
     | none => []) ++ [Ev.scrollStopEvent d, Ev.cancelFrame]
  ({ st with
      scrolling := false
      scrollDistanceX := none
      scrollDistanceY := none
      scrollDuration := none
      scrollElapsedTime := none
      scrollEndingPointX := none
      scrollEndingPointY := none
      scrollResolve := none
      scrollStartingPointX := none
      scrollStartingPointY := none
      scrollStartTime := none }, tr)

/-- The easing argument of a scroll request: a keyword string or an
explicit control point array. -/
inductive EasingArg where
  | str (s : String)
  | arr (l : List ℚ)
deriving DecidableEq

/-- Line 130: a string easing is replaced by its keyword lookup, which
yields undefined (none) for an unknown keyword. -/
def resolveEasing : EasingArg → Option (List ℚ)
  | .str s => easingKeywordMap s
  | .arr l => l

/-- controlPointsMatchCurrentControlPoints (lines 420-427) applied to a
spread control point list. -/
def ctrlPtsMatch (s : CubicBezierSolver) (l : List ℚ) : Bool :=
  if l = [s.p1x, s.p1y, s.p2x, s.p2y] then true else false

/-- Lines 130-142: resolve a keyword, then construct or reuse the cached
solver.  An unknown keyword makes easing undefined, and both uses of it
(constructor argument, spread into the match check) throw. -/
def solverStep (cur : Option CubicBezierSolver) (e : EasingArg) :
    Except VErr CubicBezierSolver :=
  match resolveEasing e with
  | none => .error .invalidEasing
  | some l =>
    match cur with
    | none => mkSolverFromList l
    | some s0 => if ctrlPtsMatch s0 l then .ok s0 else mkSolverFromList l

/-- A scroll request (the argument record of SmoothScroller.scroll with
x and y present; defaulted x and y give a zero distance on that axis). -/
structure Req where
  x : ℚ
  y : ℚ
  duration : ℚ
  easing : EasingArg
  stopPD : Bool
deriving DecidableEq

/-- The per-axis clamp of the requested target (lines 154-164):
below the 0 edge goes to 0, above the far edge goes to the far edge. -/
def limitCorrected (v hi : ℚ) : ℚ :=
  if v < 0 then 0 else if v > hi then hi else v

/-- The signed x distance a request would register from a given state:
clamped target minus the starting point (= current scrollLeft). -/
def distX (st : ScrollState) (r : Req) : ℚ :=
  limitCorrected r.x (st.scrollWidth - st.clientWidth) - st.scrollLeft

/-- The signed y distance a request would register. -/
def distY (st : ScrollState) (r : Req) : ℚ :=
  limitCorrected r.y (st.scrollHeight - st.clientHeight) - st.scrollTop

/-- Outcome of the new-scroll half of #scroll. -/
inductive Outcome where
  | noopResolved
  | instantResolved
  | animating
deriving DecidableEq

structure ScrollOut where
  st : ScrollState
  tr : List Ev
  outcome : Outcome
deriving DecidableEq

/-- A validation throw, carrying the state and trace at the throw
point (JS mutations before a throw persist). -/
structure ScrollErr where
  err : VErr
  st : ScrollState
  tr : List Ev
deriving DecidableEq

/-- The isNewScroll half of #scroll (lines 106-196), for a fresh request
assigned the pending handle h.  Order follows the source: validate
duration (allowedMin 0), resolve the easing and construct or reuse the
solver, interrupt a pending scroll, record starting points, clamp the
target, register distances, then branch on sub-pixel no-op, instant
(duration less or equal 0) and animated scroll.  iOS Safari overflow
toggling (line 147) is a browser workaround outside the model.  The
else-if guard of line 176 is the exact complement of the no-op guard
for non-NaN distances. -/
def scrollNew (st : ScrollState) (h : ℕ) (r : Req) : Except ScrollErr ScrollOut :=
  if r.duration < 0 then .error ⟨.invalidDuration, st, []⟩
  else
    match solverStep st.cubicBezierSolver r.easing with
    | .error e => .error ⟨e, st, []⟩
    | .ok s =>
      let st1 := { st with cubicBezierSolver := some s }
      let p :=
        if st1.scrollResolve.isSome then stopScroll st1 (some "New smooth scroll")
        else (st1, [])
      let st2 := p.1
      let st3 := { st2 with
        stopScrollingOnPointerDown := r.stopPD
        scrollStartingPointX := some st2.scrollLeft
        scrollStartingPointY := some st2.scrollTop }
      let lx := limitCorrected r.x (st3.scrollWidth - st3.clientWidth)
      let ly := limitCorrected r.y (st3.scrollHeight - st3.clientHeight)
      let dx := lx - st3.scrollLeft
      let dy := ly - st3.scrollTop
      let st4 := { st3 with scrollDistanceX := some dx, scrollDistanceY := some dy }
      if |dx| < 1 ∧ |dy| < 1 then
        let q := stopScroll { st4 with scrollResolve := some h } none
        .ok ⟨q.1, p.2 ++ q.2, .noopResolved⟩
      else
        let st5 := { st4 with scrollDuration := some r.duration }
        if r.duration ≤ 0 then
          let q := stopScroll
            { st5 with scrollLeft := lx, scrollTop := ly, scrollResolve := some h } none
          .ok ⟨q.1, p.2 ++ Ev.scrollToCall lx ly :: q.2, .instantResolved⟩
        else
          .ok ⟨{ st5 with scrollResolve := some h }, p.2 ++ [Ev.requestFrame], .animating⟩

/-- The offset writes of a tick (lines 233-247): each axis is written
only when its registered distance is truthy (nonzero, non-NaN). -/
def tickWrites (st : ScrollState) (progress : ℚ) : ScrollState × List Ev :=
  let p1 :=
    if truthyNum st.scrollDistanceX then
      let nl := st.scrollStartingPointX.getD 0 + progress * st.scrollDistanceX.getD 0
      ({ st with scrollLeft := nl }, [Ev.writeLeft nl])
    else (st, [])
  let p2 :=
    if truthyNum p1.1.scrollDistanceY then
      let nt := p1.1.scrollStartingPointY.getD 0 + progress * p1.1.scrollDistanceY.getD 0
      ({ p1.1 with scrollTop := nt }, [Ev.writeTop nt])
    else (p1.1, [])
  (p2.1, p1.2 ++ p2.2)

structure TickOut where
  st : ScrollState
  tr : List Ev
  finished : Bool
deriving DecidableEq

/-- The tick half of #scroll (lines 198-261), driven by a frame
timestamp.  The easing evaluation this.#cubicBezierSolver.solve is
abstracted by the function argument f (the fuelled model of solve is
developed separately); resolution, latching and write behaviour do not
depend on its value.  The falsy re-latch guard of line 198 is modelled
exactly: an unset (NaN) or zero start time latches.  The getD 0
defaults stand for arithmetic on fields that are always set while a
session is animating. -/
def tick (st : ScrollState) (currentTime : ℚ) (f : ℚ → ℚ → ℚ) : TickOut :=
  let notStarted := !(truthyNum st.scrollStartTime)
  let st1 :=
    if notStarted then { st with scrollStartTime := some currentTime, scrolling := true }
    else st
  let tr1 : List Ev :=
    if notStarted then [Ev.scrollStartEvent (getScrollEventData st1 none)] else []
  let tr2 := [Ev.scrollEvent (getScrollEventData st1 none)]
  let elapsed := currentTime - st1.scrollStartTime.getD 0
  let st2 := { st1 with scrollElapsedTime := some elapsed }
  let d := st2.scrollDuration.getD 0
  let timeFrac := min (elapsed / d) 1
  let progress := f timeFrac (1 / (200 * d))
  let w := tickWrites st2 progress
  let st5 := { w.1 with
    scrollEndingPointX := some w.1.scrollLeft
    scrollEndingPointY := some w.1.scrollTop }
  if timeFrac < 1 then
    ⟨st5, tr1 ++ tr2 ++ w.2 ++ [Ev.requestFrame], false⟩
  else
    let q := stopScroll st5 none
    ⟨q.1, tr1 ++ tr2 ++ w.2 ++ q.2, true⟩

/-! ## Derived trace observations and request sequences -/

def resolveEvents : List Ev → List (ℕ × EventData)
  | [] => []
  | Ev.resolve h d :: rest => (h, d) :: resolveEvents rest
  | _ :: rest => resolveEvents rest

/-- The resolved handles of a trace with their interruptedBy causes. -/
def resolvesIB (tr : List Ev) : List (ℕ × Option String) :=
  (resolveEvents tr).map (fun p => (p.1, p.2.interruptedBy))

def isScrollEvent : Ev → Bool
  | Ev.scrollEvent _ => true
  | _ => false

def isScrollStartEvent : Ev → Bool
  | Ev.scrollStartEvent _ => true
  | _ => false

def isWriteLeft : Ev → Bool
  | Ev.writeLeft _ => true
  | _ => false

def isWriteTop : Ev → Bool
  | Ev.writeTop _ => true
  | _ => false

def isWrite : Ev → Bool
  | Ev.writeLeft _ => true
  | Ev.writeTop _ => true
  | _ => false

/-- The endPoint carried by each frame-sample (smoothScrollerScroll)
event of a trace. -/
def scrollEventEndpoints (tr : List Ev) : List (Option ℚ × Option ℚ) :=
  tr.filterMap (fun e =>
    match e with
    | Ev.scrollEvent d => some d.endPoint
    | _ => none)

/-- Run a sequence of fresh scroll requests, handles numbered from h. -/
def runSeq (st : ScrollState) (h : ℕ) : List Req → Except ScrollErr (ScrollState × List Ev)
  | [] => .ok (st, [])
  | r :: rs =>
    match scrollNew st h r with
    | .error e => .error e
    | .ok o =>
      match runSeq o.st (h + 1) rs with
      | .error e => .error e
      | .ok (st2, tr2) => .ok (st2, o.tr ++ tr2)

def exceptIsOk : Except VErr CubicBezierSolver → Bool
  | .ok _ => true
  | .error _ => false

/-- The solver a successful request installs (junk on a failing step,
never reached under ValidReq). -/
def nextStateSolver (st : ScrollState) (r : Req) : CubicBezierSolver :=
  match solverStep st.cubicBezierSolver r.easing with
  | .ok s => s
  | .error _ => mkFromPoints 0 0 1 1

/-- Closed form of the state after a valid animated request. -/
def nextState (st : ScrollState) (h : ℕ) (r : Req) : ScrollState :=
  { st with
    cubicBezierSolver := some (nextStateSolver st r)
    scrolling := if st.scrollResolve.isSome then false else st.scrolling
    stopScrollingOnPointerDown := r.stopPD
    scrollStartingPointX := some st.scrollLeft
    scrollStartingPointY := some st.scrollTop
    scrollDistanceX := some (distX st r)
    scrollDistanceY := some (distY st r)
    scrollDuration := some r.duration
    scrollElapsedTime := none
    scrollEndingPointX := none
    scrollEndingPointY := none
    scrollResolve := some h
    scrollStartTime := none }

/-- A request that starts an animated session from st: positive
duration, constructible easing, at least one axis distance of
magnitude at least 1. -/
def ValidReq (st : ScrollState) (r : Req) : Prop :=
  0 < r.duration ∧
  exceptIsOk (solverStep st.cubicBezierSolver r.easing) = true ∧
  (1 ≤ |distX st r| ∨ 1 ≤ |distY st r|)

/-- Every request of the list starts an animated session from the
state left by its predecessors. -/
def Admissible : ScrollState → ℕ → List Req → Prop
  | _, _, [] => True
  | st, h, r :: rs => ValidReq st r ∧ Admissible (nextState st h r) (h + 1) rs

/-- Either a scroll is pending (a fresh request will clear the stale
session fields by interrupting it) or the session fields are already
clear. -/
def Clean (st : ScrollState) : Prop :=
  st.scrollResolve.isSome = true ∨
  (st.scrollStartTime = none ∧ st.scrollElapsedTime = none ∧
   st.scrollEndingPointX = none ∧ st.scrollEndingPointY = none)

/-- The interruption resolution a fresh request owes to the pending
handle of the state it arrives in. -/
def pendIB (st : ScrollState) : List (ℕ × Option String) :=
  match st.scrollResolve with
  | some k => [(k, some "New smooth scroll")]
  | none => []

/-! ## Concrete instances used by counterexamples and witnesses -/

/-- A freshly constructed scroller on a container at offset (0,0) with
scrollable extent 100 on both axes and no session state. -/
def idleState : ScrollState :=
  { scrollLeft := 0
    scrollTop := 0
    scrollWidth := 200
    clientWidth := 100
    scrollHeight := 200
    clientHeight := 100
    cubicBezierSolver := none
    scrolling := false
    stopScrollingOnPointerDown := false
    scrollDistanceX := none
    scrollDistanceY := none
    scrollDuration := none
    scrollElapsedTime := none
    scrollEndingPointX := none
    scrollEndingPointY := none
    scrollResolve := none
    scrollStartingPointX := none
    scrollStartingPointY := none
    scrollStartTime := none }

def reqA : Req := ⟨100, 0, 600, .str "ease", true⟩

def reqB : Req := ⟨50, 0, 600, .str "ease", true⟩

/-- A request to the current offset (both distances 0). -/
def noopReq : Req := ⟨0, 0, 600, .str "ease", true⟩

/-- A request with a negative duration (validation failure). -/
def badReq : Req := ⟨0, 0, -5, .str "ease", true⟩

/-- The solver cached after an "ease" request. -/
def easeSolver : CubicBezierSolver := mkFromPoints (1/4) (1/10) (1/4) 1

/-- A mid-session state: animating from 0 toward 100 on the x axis,
duration 600, started at timestamp 100, last tick wrote offset 25. -/
def c7State : ScrollState :=
  { scrollLeft := 25
    scrollTop := 0
    scrollWidth := 200
    clientWidth := 100
    scrollHeight := 200
    clientHeight := 100
    cubicBezierSolver := some easeSolver
    scrolling := true
    stopScrollingOnPointerDown := true
    scrollDistanceX := some 100
    scrollDistanceY := some 0
    scrollDuration := some 600
    scrollElapsedTime := some 100
    scrollEndingPointX := some 25
    scrollEndingPointY := some 0
    scrollResolve := some 0
    scrollStartingPointX := some 0
    scrollStartingPointY := some 0
    scrollStartTime := some 100 }

/-- The tick of c7State at timestamp 400 with the identity easing. -/
def c7Tick : TickOut := tick c7State 400 (fun a _ => a)

/-- Request reqA on a fresh scroller, then a first driver tick at
timestamp 0 (a legal frame timestamp). -/
def c6Tick1 : TickOut :=
  match scrollNew idleState 0 reqA with
  | .ok o => tick o.st 0 (fun a _ => a)
  | .error _ => ⟨idleState, [], true⟩

/-- The following driver tick at timestamp 16. -/
def c6Tick2 : TickOut := tick c6Tick1.st 16 (fun a _ => a)

/-- The resolutions produced by two back-to-back animated requests on
a fresh scroller. -/
def c1cexResolves : List (ℕ × Option String) :=
  match runSeq idleState 0 [reqA, reqB] with
  | .ok p => resolvesIB p.2
  | .error _ => []

/-- The handle, interruptedBy and elapsedTime carried by each
resolution of a no-op request on a fresh scroller. -/
def c3cexResolves : List (ℕ × Option String × Option ℚ) :=
  match scrollNew idleState 0 noopReq with
  | .ok o => (resolveEvents o.tr).map (fun p => (p.1, p.2.interruptedBy, p.2.elapsedTime))
  | .error _ => []

/-! ## Analysis of the easing solver -/

theorem sampleCurveX_sub (s : CubicBezierSolver) (u v : ℚ) :
    sampleCurveX s v - sampleCurveX s u =
      (v - u) * (s.ax * (v ^ 2 + v * u + u ^ 2) + s.bx * (v + u) + s.cx) := by
  simp only [sampleCurveX]
  ring

theorem lipX_nonneg (s : CubicBezierSolver) : 0 ≤ lipX s := by
  unfold lipX
  positivity

theorem abs_sampleCurveX_sub_le (s : CubicBezierSolver) {u v : ℚ}
    (h0 : 0 ≤ u) (huv : u ≤ v) (h1 : v ≤ 1) :
    |sampleCurveX s v - sampleCurveX s u| ≤ lipX s * (v - u) := by
  rw [sampleCurveX_sub, abs_mul, abs_of_nonneg (sub_nonneg.2 huv)]
  have h3 : |s.ax * (v ^ 2 + v * u + u ^ 2)| ≤ 3 * |s.ax| := by
    rw [abs_mul]
    have hb : |v ^ 2 + v * u + u ^ 2| ≤ 3 := by
      rw [abs_of_nonneg (by nlinarith)]
      nlinarith
    nlinarith [abs_nonneg s.ax]
  have h2 : |s.bx * (v + u)| ≤ 2 * |s.bx| := by
    rw [abs_mul]
    have hb : |v + u| ≤ 2 := by
      rw [abs_of_nonneg (by linarith)]
      linarith
    nlinarith [abs_nonneg s.bx]
  have hq : |s.ax * (v ^ 2 + v * u + u ^ 2) + s.bx * (v + u) + s.cx| ≤ lipX s := by
    have ha := abs_add (s.ax * (v ^ 2 + v * u + u ^ 2) + s.bx * (v + u)) s.cx
    have hb := abs_add (s.ax * (v ^ 2 + v * u + u ^ 2)) (s.bx * (v + u))
    unfold lipX
    linarith
  have := mul_le_mul_of_nonneg_left hq (sub_nonneg.2 huv)
  linarith [this]

theorem sampleCurveX_near (s : CubicBezierSolver) {t0 t1 m x : ℚ}
    (h0 : 0 ≤ t0) (h1 : t1 ≤ 1) (hm0 : t0 ≤ m) (hm1 : m ≤ t1)
    (hx0 : sampleCurveX s t0 ≤ x) (hx1 : x ≤ sampleCurveX s t1) :
    |sampleCurveX s m - x| ≤ lipX s * (t1 - t0) := by
  have hL := lipX_nonneg s
  have hA := abs_sampleCurveX_sub_le s h0 hm0 (le_trans hm1 h1)
  have hB := abs_sampleCurveX_sub_le s (le_trans h0 hm0) hm1 h1
  rw [abs_le] at hA hB ⊢
  constructor
  · have hmono : lipX s * (t1 - m) ≤ lipX s * (t1 - t0) := by nlinarith
    linarith [hB.2]
  · have hmono : lipX s * (m - t0) ≤ lipX s * (t1 - t0) := by nlinarith
    linarith [hA.2]

theorem newtonLoop_succ_eq (s : CubicBezierSolver) (x eps : ℚ) (n : ℕ) (t2 : ℚ) :
    newtonLoop s x eps (n + 1) t2 =
      if |sampleCurveX s t2 - x| < eps then some t2
      else if |sampleCurveDerivativeX s t2| < 1 / 1000000 then none
      else newtonLoop s x eps n (t2 - (sampleCurveX s t2 - x) / sampleCurveDerivativeX s t2) :=
  rfl

theorem newtonLoop_tol (s : CubicBezierSolver) (x eps : ℚ) :
    ∀ n t2 t, newtonLoop s x eps n t2 = some t → |sampleCurveX s t - x| < eps := by
  intro n
  induction n with
  | zero => intro t2 t h; simp [newtonLoop] at h
  | succ n ih =>
    intro t2 t h
    rw [newtonLoop_succ_eq] at h
    by_cases h1 : |sampleCurveX s t2 - x| < eps
    · rw [if_pos h1] at h
      injection h with h2
      subst h2
      exact h1
    · rw [if_neg h1] at h
      by_cases h2 : |sampleCurveDerivativeX s t2| < 1 / 1000000
      · rw [if_pos h2] at h
        exact Option.noConfusion h
      · rw [if_neg h2] at h
        exact ih _ _ h

theorem bisectLoop_succ_eq (s : CubicBezierSolver) (x eps : ℚ) (n : ℕ) (t0 t1 t2 : ℚ) :
    bisectLoop s x eps (n + 1) t0 t1 t2 =
      if t0 < t1 then
        if |sampleCurveX s t2 - x| < eps then some t2
        else if x > sampleCurveX s t2 then
          bisectLoop s x eps n t2 t1 ((t1 - t2) * (1/2) + t2)
        else
          bisectLoop s x eps n t0 t2 ((t2 - t0) * (1/2) + t0)
      else some t2 :=
  rfl

theorem bisectLoop_mid (s : CubicBezierSolver) (x eps : ℚ) (heps : 0 < eps) :
    ∀ n t0 t1, 0 ≤ t0 → t1 ≤ 1 → t0 ≤ t1 →
      sampleCurveX s t0 ≤ x → x ≤ sampleCurveX s t1 →
      lipX s * (t1 - t0) < eps * 2 ^ n →
      ∃ t, bisectLoop s x eps (n + 1) t0 t1 ((t1 - t0) * (1/2) + t0) = some t ∧
        |sampleCurveX s t - x| < eps := by
  intro n
  induction n with
  | zero =>
    intro t0 t1 h0 h1 h01 hx0 hx1 hw
    rcases lt_or_eq_of_le h01 with hlt | heq
    · have hm0 : t0 ≤ (t1 - t0) * (1/2) + t0 := by linarith
      have hm1 : (t1 - t0) * (1/2) + t0 ≤ t1 := by linarith
      have htol : |sampleCurveX s ((t1 - t0) * (1/2) + t0) - x| < eps := by
        have hnear := sampleCurveX_near s h0 h1 hm0 hm1 hx0 hx1
        have h20 : eps * 2 ^ (0 : ℕ) = eps := by ring
        linarith
      refine ⟨(t1 - t0) * (1/2) + t0, ?_, htol⟩
      rw [bisectLoop_succ_eq, if_pos hlt, if_pos htol]
    · subst heq
      refine ⟨(t0 - t0) * (1/2) + t0, ?_, ?_⟩
      · rw [bisectLoop_succ_eq, if_neg (lt_irrefl t0)]
      · have hmid : (t0 - t0) * (1/2) + t0 = t0 := by ring
        rw [hmid]
        have hxeq : sampleCurveX s t0 = x := le_antisymm hx0 hx1
        rw [hxeq, sub_self, abs_zero]
        exact heps
  | succ n ih =>
    intro t0 t1 h0 h1 h01 hx0 hx1 hw
    rcases lt_or_eq_of_le h01 with hlt | heq
    · have hm0 : t0 ≤ (t1 - t0) * (1/2) + t0 := by linarith
      have hm1 : (t1 - t0) * (1/2) + t0 ≤ t1 := by linarith
      by_cases htol : |sampleCurveX s ((t1 - t0) * (1/2) + t0) - x| < eps
      · refine ⟨(t1 - t0) * (1/2) + t0, ?_, htol⟩
        rw [bisectLoop_succ_eq, if_pos hlt, if_pos htol]
      · by_cases hgt : x > sampleCurveX s ((t1 - t0) * (1/2) + t0)
        · have hw2 : lipX s * (t1 - ((t1 - t0) * (1/2) + t0)) < eps * 2 ^ n := by
            rw [pow_succ] at hw
            nlinarith
          obtain ⟨t, hrun, htl⟩ := ih ((t1 - t0) * (1/2) + t0) t1
            (le_trans h0 hm0) h1 hm1 (le_of_lt hgt) hx1 hw2
          refine ⟨t, ?_, htl⟩
          rw [bisectLoop_succ_eq, if_pos hlt, if_neg htol, if_pos hgt]
          exact hrun
        · have hle : x ≤ sampleCurveX s ((t1 - t0) * (1/2) + t0) := not_lt.1 hgt
          have hw2 : lipX s * ((t1 - t0) * (1/2) + t0 - t0) < eps * 2 ^ n := by
            rw [pow_succ] at hw
            nlinarith
          obtain ⟨t, hrun, htl⟩ := ih t0 ((t1 - t0) * (1/2) + t0)
            h0 (le_trans hm1 h1) hm0 hx0 hle hw2
          refine ⟨t, ?_, htl⟩
          rw [bisectLoop_succ_eq, if_pos hlt, if_neg htol, if_neg hgt]
          exact hrun
    · subst heq
      refine ⟨(t0 - t0) * (1/2) + t0, ?_, ?_⟩
      · rw [bisectLoop_succ_eq, if_neg (lt_irrefl t0)]
      · have hmid : (t0 - t0) * (1/2) + t0 = t0 := by ring
        rw [hmid]
        have hxeq : sampleCurveX s t0 = x := le_antisymm hx0 hx1
        rw [hxeq, sub_self, abs_zero]
        exact heps

theorem sampleCurveX_zero (s : CubicBezierSolver) : sampleCurveX s 0 = 0 := by
  simp [sampleCurveX]

theorem sampleCurveX_one (s : CubicBezierSolver)
    (hsum : s.ax + s.bx + s.cx = 1) : sampleCurveX s 1 = 1 := by
  simp [sampleCurveX]
  linarith

theorem mkFromPoints_sum (p1x p1y p2x p2y : ℚ) :
    (mkFromPoints p1x p1y p2x p2y).ax + (mkFromPoints p1x p1y p2x p2y).bx +
      (mkFromPoints p1x p1y p2x p2y).cx = 1 := by
  simp only [mkFromPoints]
  ring

theorem bisectLoop_entry (s : CubicBezierSolver) (x eps : ℚ) (heps : 0 < eps)
    (hx0 : 0 ≤ x) (hx1 : x ≤ 1) (hsum : s.ax + s.bx + s.cx = 1) :
    ∃ N t, bisectLoop s x eps N 0 1 x = some t ∧ |sampleCurveX s t - x| < eps := by
  have hL := lipX_nonneg s
  obtain ⟨N, hN⟩ : ∃ N : ℕ, lipX s < eps * 2 ^ N := by
    obtain ⟨N, hN⟩ := pow_unbounded_of_one_lt (lipX s / eps) (one_lt_two (α := ℚ))
    rw [div_lt_iff₀ heps] at hN
    exact ⟨N, by linarith⟩
  have h01 : (0 : ℚ) < 1 := by norm_num
  by_cases htol : |sampleCurveX s x - x| < eps
  · refine ⟨N + 1 + 1, x, ?_, htol⟩
    rw [bisectLoop_succ_eq, if_pos h01, if_pos htol]
  · by_cases hgt : x > sampleCurveX s x
    · have hx1' : x ≤ sampleCurveX s 1 := by rw [sampleCurveX_one s hsum]; exact hx1
      have hle : lipX s * (1 - x) ≤ lipX s := by nlinarith [mul_nonneg hL hx0]
      have hw : lipX s * (1 - x) < eps * 2 ^ N := lt_of_le_of_lt hle hN
      obtain ⟨t, hrun, htl⟩ := bisectLoop_mid s x eps heps N x 1 hx0 le_rfl hx1
        (le_of_lt hgt) hx1' hw
      refine ⟨N + 1 + 1, t, ?_, htl⟩
      rw [bisectLoop_succ_eq, if_pos h01, if_neg htol, if_pos hgt]
      exact hrun
    · have hx0' : sampleCurveX s 0 ≤ x := by rw [sampleCurveX_zero]; exact hx0
      have hle : lipX s * (x - 0) ≤ lipX s := by
        nlinarith [mul_nonneg hL (sub_nonneg.2 hx1)]
      have hw : lipX s * (x - 0) < eps * 2 ^ N := lt_of_le_of_lt hle hN
      obtain ⟨t, hrun, htl⟩ := bisectLoop_mid s x eps heps N 0 x le_rfl hx1 hx0
        hx0' (not_lt.1 hgt) hw
      refine ⟨N + 1 + 1, t, ?_, htl⟩
      rw [bisectLoop_succ_eq, if_pos h01, if_neg htol, if_neg hgt]
      exact hrun

/-- Any fuelled run of solveCurveX that returns did so through the
Newton tolerance check, the bisection tolerance check, or a collapsed
bracket; the combined entry lemma produces a fuel for which one of the
first two fires. -/
theorem solveCurveX_entry (s : CubicBezierSolver) (x eps : ℚ) (heps : 0 < eps)
    (hx0 : 0 ≤ x) (hx1 : x ≤ 1) (hsum : s.ax + s.bx + s.cx = 1) :
    ∃ N t, solveCurveX s N x eps = some t ∧ |sampleCurveX s t - x| < eps := by
  cases hnewton : newtonLoop s x eps 8 x with
  | some t =>
    refine ⟨0, t, ?_, newtonLoop_tol s x eps 8 x t hnewton⟩
    unfold solveCurveX
    rw [hnewton]
  | none =>
    obtain ⟨N, t, hrun, htl⟩ := bisectLoop_entry s x eps heps hx0 hx1 hsum
    refine ⟨N, t, ?_, htl⟩
    unfold solveCurveX
    rw [hnewton]
    exact hrun

/-- Claim C4: solveCurveX terminates for every input x in [0,1] and every
epsilon above 0: either the Newton stage returns within its 8 iterations,
or the bisection loop returns through its tolerance check or a collapsed
bracket; with enough fuel the modelled loop returns some result, so the
source loop never runs forever. -/
theorem c4_solveCurveX_terminates (p1x p1y p2x p2y x eps : ℚ)
    (hx0 : 0 ≤ x) (hx1 : x ≤ 1) (heps : 0 < eps) :
    ∃ N, (solveCurveX (mkFromPoints p1x p1y p2x p2y) N x eps).isSome = true := by
  obtain ⟨N, t, hrun, _⟩ := solveCurveX_entry (mkFromPoints p1x p1y p2x p2y) x eps
    heps hx0 hx1 (mkFromPoints_sum p1x p1y p2x p2y)
  exact ⟨N, by rw [hrun]; rfl⟩

/-- Witness for C4 at the ease control points, x = 1/2, epsilon = 1/100. -/
theorem c4_witness :
    (0:ℚ) ≤ 1/2 ∧ (1/2:ℚ) ≤ 1 ∧ (0:ℚ) < 1/100 ∧
      ∃ N, (solveCurveX (mkFromPoints (1/4) (1/10) (1/4) 1) N (1/2) (1/100)).isSome = true :=
  ⟨by norm_num, by norm_num, by norm_num,
    c4_solveCurveX_terminates (1/4) (1/10) (1/4) 1 (1/2) (1/100)
      (by norm_num) (by norm_num) (by norm_num)⟩

theorem linearSolver_XY (t : ℚ) :
    sampleCurveY linearSolver t = sampleCurveX linearSolver t := by
  simp only [sampleCurveY, sampleCurveX, linearSolver, mkFromPoints]

/-- Claim C5: for the solver built from the linear control points
[0,0,1,1], solve(r, eps) equals r to within eps for every r in [0,1]
and every eps above 0 (with enough fuel for the bisection loop). -/
theorem c5_linear_accuracy (r eps : ℚ) (h0 : 0 ≤ r) (h1 : r ≤ 1) (heps : 0 < eps) :
    ∃ N y, solve linearSolver N r eps = some y ∧ |y - r| < eps := by
  obtain ⟨N, t, hrun, htl⟩ := solveCurveX_entry linearSolver r eps heps h0 h1
    (mkFromPoints_sum 0 0 1 1)
  refine ⟨N, sampleCurveY linearSolver t, ?_, ?_⟩
  · unfold solve
    rw [hrun]
    rfl
  · rw [linearSolver_XY]
    exact htl

/-- Witness for C5 at r = 1/2, epsilon = 1/4. -/
theorem c5_witness :
    (0:ℚ) ≤ 1/2 ∧ (1/2:ℚ) ≤ 1 ∧ (0:ℚ) < 1/4 ∧
      ∃ N y, solve linearSolver N (1/2) (1/4) = some y ∧ |y - 1/2| < 1/4 :=
  ⟨by norm_num, by norm_num, by norm_num,
    c5_linear_accuracy (1/2) (1/4) (by norm_num) (by norm_num) (by norm_num)⟩

/-- Claim C10: in the constructor, a control point y coordinate with
magnitude at least floor(MAX_SAFE_INTEGER / 6) is replaced by the
positive limit regardless of sign, and any y with magnitude strictly
below the limit is kept unchanged. -/
theorem c10_yLimiter (y : ℚ) :
    (yLimit ≤ |y| → yLimiter y = yLimit) ∧ (|y| < yLimit → yLimiter y = y) := by
  constructor
  · intro h
    unfold yLimiter
    rw [if_neg (not_lt.2 h)]
  · intro h
    unfold yLimiter
    rw [if_pos h]

/-- Witness for C10: a large negative y is flipped to the positive
limit, a small y is kept. -/
theorem c10_witness :
    (yLimit ≤ |(-3002399751580330 : ℚ)| ∧ yLimiter (-3002399751580330) = yLimit) ∧
      (|(7:ℚ)| < yLimit ∧ yLimiter 7 = 7) := by
  have h1 : yLimit ≤ |(-3002399751580330 : ℚ)| := by
    rw [abs_of_nonpos (by norm_num)]
    norm_num [yLimit]
  have h2 : |(7:ℚ)| < yLimit := by
    rw [abs_of_nonneg (by norm_num)]
    norm_num [yLimit]
  exact ⟨⟨h1, (c10_yLimiter _).1 h1⟩, ⟨h2, (c10_yLimiter _).2 h2⟩⟩

/-- Claim C2: the per-axis clamp of a requested coordinate lands in
[0, extent] whenever the visible size does not exceed the content size
(the DOM invariant for scrollWidth/clientWidth), where the extent
floored at 0 is exactly the far edge the source clamps to. -/
theorem c2_clampedTarget (x sw cw : ℚ) (h : cw ≤ sw) :
    0 ≤ limitCorrected x (sw - cw) ∧ limitCorrected x (sw - cw) ≤ max 0 (sw - cw) := by
  have hext : 0 ≤ sw - cw := sub_nonneg.2 h
  unfold limitCorrected
  split_ifs with h1 h2
  · exact ⟨le_rfl, le_max_left 0 _⟩
  · exact ⟨hext, le_max_right 0 _⟩
  · exact ⟨not_lt.1 h1, le_trans (not_lt.1 h2) (le_max_right 0 _)⟩

/-- Witness for C2: an overshooting request x = 500 against extent 70. -/
theorem c2_witness :
    (30:ℚ) ≤ 100 ∧
      (0 ≤ limitCorrected 500 ((100:ℚ) - 30) ∧
        limitCorrected 500 ((100:ℚ) - 30) ≤ max 0 ((100:ℚ) - 30)) :=
  ⟨by norm_num, c2_clampedTarget 500 100 30 (by norm_num)⟩

/-! ## Session machine: trace and state helper lemmas -/

theorem resolveEvents_append (a b : List Ev) :
    resolveEvents (a ++ b) = resolveEvents a ++ resolveEvents b := by
  induction a with
  | nil => rfl
  | cons e rest ih => cases e <;> simp [resolveEvents, ih]

theorem resolvesIB_append (a b : List Ev) :
    resolvesIB (a ++ b) = resolvesIB a ++ resolvesIB b := by
  simp [resolvesIB, resolveEvents_append]

theorem stopScroll_resolveEvents (st : ScrollState) (cause : Option String) :
    resolveEvents (stopScroll st cause).2 =
      match st.scrollResolve with
      | some k => [(k, getScrollEventData st cause)]
      | none => [] := by
  cases hres : st.scrollResolve <;>
    simp [stopScroll, resolveEvents, hres]

theorem stopScroll_resolve (st : ScrollState) (cause : Option String) :
    (stopScroll st cause).1.scrollResolve = none := by
  simp [stopScroll]

theorem stopScroll_left (st : ScrollState) (cause : Option String) :
    (stopScroll st cause).1.scrollLeft = st.scrollLeft := by
  simp [stopScroll]

theorem stopScroll_top (st : ScrollState) (cause : Option String) :
    (stopScroll st cause).1.scrollTop = st.scrollTop := by
  simp [stopScroll]

theorem stopScroll_noWriteEvents (st : ScrollState) (cause : Option String) :
    ((stopScroll st cause).2.any fun e => isWrite e) = false := by
  cases hres : st.scrollResolve <;>
    simp [stopScroll, isWrite, hres]

theorem stopScroll_noScrollEvents (st : ScrollState) (cause : Option String) :
    scrollEventEndpoints (stopScroll st cause).2 = [] := by
  cases hres : st.scrollResolve <;>
    simp [stopScroll, scrollEventEndpoints, hres]

theorem tickWrites_startTime (st : ScrollState) (progress : ℚ) :
    (tickWrites st progress).1.scrollStartTime = st.scrollStartTime := by
  unfold tickWrites
  by_cases h1 : truthyNum st.scrollDistanceX <;>
    by_cases h2 : truthyNum st.scrollDistanceY <;>
      simp [h1, h2]

theorem tickWrites_resolve (st : ScrollState) (progress : ℚ) :
    (tickWrites st progress).1.scrollResolve = st.scrollResolve := by
  unfold tickWrites
  by_cases h1 : truthyNum st.scrollDistanceX <;>
    by_cases h2 : truthyNum st.scrollDistanceY <;>
      simp [h1, h2]

theorem tickWrites_duration (st : ScrollState) (progress : ℚ) :
    (tickWrites st progress).1.scrollDuration = st.scrollDuration := by
  unfold tickWrites
  by_cases h1 : truthyNum st.scrollDistanceX <;>
    by_cases h2 : truthyNum st.scrollDistanceY <;>
      simp [h1, h2]

theorem tickWrites_distX (st : ScrollState) (progress : ℚ) :
    (tickWrites st progress).1.scrollDistanceX = st.scrollDistanceX := by
  unfold tickWrites
  by_cases h1 : truthyNum st.scrollDistanceX <;>
    by_cases h2 : truthyNum st.scrollDistanceY <;>
      simp [h1, h2]

theorem tickWrites_distY (st : ScrollState) (progress : ℚ) :
    (tickWrites st progress).1.scrollDistanceY = st.scrollDistanceY := by
  unfold tickWrites
  by_cases h1 : truthyNum st.scrollDistanceX <;>
    by_cases h2 : truthyNum st.scrollDistanceY <;>
      simp [h1, h2]

theorem tickWrites_noScrollEvents (st : ScrollState) (progress : ℚ) :
    scrollEventEndpoints (tickWrites st progress).2 = [] := by
  unfold tickWrites
  by_cases h1 : truthyNum st.scrollDistanceX <;>
    by_cases h2 : truthyNum st.scrollDistanceY <;>
      simp [h1, h2, scrollEventEndpoints]

theorem tickWrites_resolves (st : ScrollState) (progress : ℚ) :
    resolveEvents (tickWrites st progress).2 = [] := by
  unfold tickWrites
  by_cases h1 : truthyNum st.scrollDistanceX <;>
    by_cases h2 : truthyNum st.scrollDistanceY <;>
      simp [h1, h2, resolveEvents]

theorem tickWrites_anyLeft (st : ScrollState) (progress : ℚ) :
    (tickWrites st progress).2.any (fun e => isWriteLeft e) = truthyNum st.scrollDistanceX := by
  unfold tickWrites
  by_cases h1 : truthyNum st.scrollDistanceX <;>
    by_cases h2 : truthyNum st.scrollDistanceY <;>
      simp [h1, h2, isWriteLeft]

theorem tickWrites_anyTop (st : ScrollState) (progress : ℚ) :
    (tickWrites st progress).2.any (fun e => isWriteTop e) = truthyNum st.scrollDistanceY := by
  unfold tickWrites
  by_cases h1 : truthyNum st.scrollDistanceX <;>
    by_cases h2 : truthyNum st.scrollDistanceY <;>
      simp [h1, h2, isWriteTop]

theorem tickWrites_allWrites (st : ScrollState) (progress : ℚ) :
    (tickWrites st progress).2.all (fun e => isWrite e) = true := by
  unfold tickWrites
  by_cases h1 : truthyNum st.scrollDistanceX <;>
    by_cases h2 : truthyNum st.scrollDistanceY <;>
      simp [h1, h2, isWrite]

/-- A tick arriving while the start time is falsy (unset NaN, or the
zero timestamp of a first frame) latches the start time to the tick
timestamp, resolves nothing, keeps animating (the elapsed time is 0
and the progress guard 0 < 1 holds for any duration), and leaves
handle, duration and distances unchanged. -/
theorem tick_first (st : ScrollState) (t : ℚ) (f : ℚ → ℚ → ℚ)
    (hlatch : truthyNum st.scrollStartTime = false) :
    (tick st t f).finished = false ∧
    resolvesIB (tick st t f).tr = [] ∧
    (tick st t f).st.scrollStartTime = some t ∧
    (tick st t f).st.scrollResolve = st.scrollResolve ∧
    (tick st t f).st.scrollDuration = st.scrollDuration := by
  have hmin : min ((0:ℚ)) 1 = 0 := min_eq_left zero_le_one
  simp [tick, hlatch, hmin, resolvesIB, resolveEvents_append, resolveEvents,
    tickWrites_resolves, tickWrites_startTime, tickWrites_resolve, tickWrites_duration]

/-- A tick arriving while the start time is falsy dispatches exactly
one start-of-scroll notification. -/
theorem tick_latch_startCount (st : ScrollState) (t : ℚ) (f : ℚ → ℚ → ℚ)
    (hlatch : truthyNum st.scrollStartTime = false) :
    (tick st t f).tr.countP (fun e => isScrollStartEvent e) = 1 := by
  have hnowr : ∀ (s2 : ScrollState) (p : ℚ),
      (tickWrites s2 p).2.countP (fun e => isScrollStartEvent e) = 0 := by
    intro s2 p
    unfold tickWrites
    by_cases h1 : truthyNum s2.scrollDistanceX <;>
      by_cases h2 : truthyNum s2.scrollDistanceY <;>
        simp [h1, h2, isScrollStartEvent]
  have hmin : min ((0:ℚ)) 1 = 0 := min_eq_left zero_le_one
  simp [tick, hlatch, hmin]
  simp only [List.countP_append, List.countP_cons, List.countP_nil, hnowr]
  simp [isScrollStartEvent]

/-- A later tick of a session whose start time was latched to a
nonzero timestamp and whose duration has fully elapsed finalizes:
it resolves the pending handle with a null interruption cause and
clears it. -/
theorem tick_finish (st : ScrollState) (t : ℚ) (f : ℚ → ℚ → ℚ)
    (t0 d : ℚ) (k : ℕ)
    (hst : st.scrollStartTime = some t0) (ht0 : t0 ≠ 0)
    (hd : st.scrollDuration = some d) (hdpos : 0 < d)
    (hk : st.scrollResolve = some k) (hfin : t0 + d ≤ t) :
    (tick st t f).finished = true ∧
    resolvesIB (tick st t f).tr = [(k, none)] ∧
    (tick st t f).st.scrollResolve = none := by
  have hlatch : truthyNum (some t0) = true := by
    simp [truthyNum, ht0]
  have hone : (1:ℚ) ≤ (t - t0) / d := by
    rw [le_div_iff₀ hdpos]
    linarith
  have hfrac : min ((t - t0) / d) 1 = 1 := min_eq_right hone
  simp [tick, hlatch, hst, hd, hfrac, resolvesIB, resolveEvents_append, resolveEvents,
    tickWrites_resolves, tickWrites_resolve, stopScroll_resolveEvents,
    stopScroll_resolve, hk, getScrollEventData]

/-- Claim C9: within any tick, an axis write event is emitted exactly
when the registered distance on that axis is truthy (nonzero and not
NaN); an axis whose signed distance is zero is never written. -/
theorem c9_write_iff_distance (st : ScrollState) (t : ℚ) (f : ℚ → ℚ → ℚ) :
    ((tick st t f).tr.any (fun e => isWriteLeft e) = truthyNum st.scrollDistanceX) ∧
    ((tick st t f).tr.any (fun e => isWriteTop e) = truthyNum st.scrollDistanceY) := by
  have hsL : ∀ (s2 : ScrollState) (c : Option String),
      ((stopScroll s2 c).2.any fun e => isWriteLeft e) = false := by
    intro s2 c
    cases hres : s2.scrollResolve <;> simp [stopScroll, isWriteLeft, hres]
  have hsT : ∀ (s2 : ScrollState) (c : Option String),
      ((stopScroll s2 c).2.any fun e => isWriteTop e) = false := by
    intro s2 c
    cases hres : s2.scrollResolve <;> simp [stopScroll, isWriteTop, hres]
  by_cases hlatch : truthyNum st.scrollStartTime = true
  · constructor <;>
    · simp [tick, hlatch]
      split <;>
      · simp only [List.any_append, List.any_cons, List.any_nil,
          tickWrites_anyLeft, tickWrites_anyTop, hsL, hsT]
        simp [isWriteLeft, isWriteTop]
  · rw [Bool.not_eq_true] at hlatch
    constructor <;>
    · simp [tick, hlatch]
      simp only [List.any_append, List.any_cons, List.any_nil,
        tickWrites_anyLeft, tickWrites_anyTop, hsL, hsT]
      simp [isWriteLeft, isWriteTop]

theorem scrollEventEndpoints_append (a b : List Ev) :
    scrollEventEndpoints (a ++ b) = scrollEventEndpoints a ++ scrollEventEndpoints b := by
  simp [scrollEventEndpoints]

theorem scrollEventEndpoints_nil : scrollEventEndpoints [] = [] := rfl

theorem scrollEventEndpoints_cons_start (d : EventData) (l : List Ev) :
    scrollEventEndpoints (Ev.scrollStartEvent d :: l) = scrollEventEndpoints l := by
  simp [scrollEventEndpoints]

theorem scrollEventEndpoints_cons_scroll (d : EventData) (l : List Ev) :
    scrollEventEndpoints (Ev.scrollEvent d :: l) = d.endPoint :: scrollEventEndpoints l := by
  simp [scrollEventEndpoints]

theorem scrollEventEndpoints_frame :
    scrollEventEndpoints [Ev.requestFrame] = [] := rfl

/-- Claim C7 (amended): within every tick exactly one frame-sample
report is emitted; it carries the ending points stored at the end of
the previous tick (unset on the first tick), and it precedes every
offset write of the tick (no write occurs before the first
frame-sample event of the trace). -/
theorem c7_report_before_writes (st : ScrollState) (t : ℚ) (f : ℚ → ℚ → ℚ) :
    scrollEventEndpoints (tick st t f).tr =
      [(st.scrollEndingPointX, st.scrollEndingPointY)] ∧
    ((tick st t f).tr.takeWhile (fun e => !(isScrollEvent e))).any (fun e => isWrite e)
      = false := by
  by_cases hlatch : truthyNum st.scrollStartTime = true
  · refine ⟨?_, ?_⟩
    · simp only [tick, hlatch, Bool.not_true, Bool.false_eq_true, if_false]
      split <;>
      · simp only [scrollEventEndpoints_cons_start, scrollEventEndpoints_cons_scroll,
          scrollEventEndpoints_append, scrollEventEndpoints_nil, scrollEventEndpoints_frame,
          tickWrites_noScrollEvents, stopScroll_noScrollEvents, List.singleton_append,
          List.cons_append, List.nil_append]
        simp [getScrollEventData]
    · simp [tick, hlatch]
      split <;>
        simp [List.takeWhile_cons, isScrollEvent, isWrite]
  · rw [Bool.not_eq_true] at hlatch
    refine ⟨?_, ?_⟩
    · simp only [tick, hlatch, Bool.not_false, if_true]
      split <;>
      · simp only [scrollEventEndpoints_cons_start, scrollEventEndpoints_cons_scroll,
          scrollEventEndpoints_append, scrollEventEndpoints_nil, scrollEventEndpoints_frame,
          tickWrites_noScrollEvents, stopScroll_noScrollEvents, List.singleton_append,
          List.cons_append, List.nil_append]
        simp [getScrollEventData]
    · simp [tick, hlatch]
      simp [List.takeWhile_cons, isScrollEvent, isWrite]

/-! ## The new-scroll transition -/

/-- Claim C8: whenever a fresh scroll request raises a validation error
(invalid duration, unknown easing keyword, malformed control point
list), the error is returned synchronously to the caller carrying the
entry state unchanged and an empty trace: no session field is mutated,
no event is dispatched, no frame is cancelled, and no pending handle is
created or resolved (resolutions only ever carry an event data record,
never an error, by the shape of Ev.resolve). -/
theorem c8_validation_error (st : ScrollState) (h : ℕ) (r : Req) (e : ScrollErr)
    (herr : scrollNew st h r = .error e) : e.st = st ∧ e.tr = [] := by
  unfold scrollNew at herr
  by_cases hdur : r.duration < 0
  · rw [if_pos hdur] at herr
    injection herr with h1
    subst h1
    exact ⟨rfl, rfl⟩
  · rw [if_neg hdur] at herr
    cases hstep : solverStep st.cubicBezierSolver r.easing with
    | error e2 =>
      rw [hstep] at herr
      injection herr with h1
      subst h1
      exact ⟨rfl, rfl⟩
    | ok s =>
      rw [hstep] at herr
      dsimp only at herr
      split_ifs at herr

/-- The state registered by a valid animated request is its closed
form nextState: previous pending scroll interrupted, starting points
and distances recorded, duration stored, handle installed, start time
left unset for the first tick. -/
theorem scrollNew_animating (st : ScrollState) (h : ℕ) (r : Req)
    (hclean : Clean st) (hdur : 0 < r.duration)
    (hok : exceptIsOk (solverStep st.cubicBezierSolver r.easing) = true)
    (hdist : 1 ≤ |distX st r| ∨ 1 ≤ |distY st r|) :
    ∃ tr, scrollNew st h r = .ok ⟨nextState st h r, tr, .animating⟩ ∧
      resolvesIB tr = pendIB st := by
  obtain ⟨s, hs⟩ : ∃ s, solverStep st.cubicBezierSolver r.easing = .ok s := by
    cases hstep : solverStep st.cubicBezierSolver r.easing with
    | ok s => exact ⟨s, rfl⟩
    | error e2 => rw [hstep] at hok; simp [exceptIsOk] at hok
  have hnn : ¬ r.duration < 0 := not_lt.2 (le_of_lt hdur)
  have hnle : ¬ r.duration ≤ 0 := not_le.2 hdur
  have hno : ¬ (|limitCorrected r.x (st.scrollWidth - st.clientWidth) - st.scrollLeft| < 1 ∧
      |limitCorrected r.y (st.scrollHeight - st.clientHeight) - st.scrollTop| < 1) := by
    simp only [distX, distY] at hdist
    rcases hdist with h1 | h1
    · intro hc
      linarith [hc.1]
    · intro hc
      linarith [hc.2]
  cases hres : st.scrollResolve with
  | none =>
    rcases hclean with hsome | ⟨h1, h2, h3, h4⟩
    · rw [hres] at hsome
      simp at hsome
    refine ⟨[Ev.requestFrame], ?_, by simp [resolvesIB, resolveEvents, pendIB, hres]⟩
    simp [scrollNew, hnn, hs, hres, hno, hnle, nextState, nextStateSolver,
      distX, distY, h1, h2, h3, h4]
  | some k =>
    refine ⟨(stopScroll { st with cubicBezierSolver := some s }
        (some "New smooth scroll")).2 ++ [Ev.requestFrame], ?_, ?_⟩
    · simp [scrollNew, hnn, hs, hres, hno, hnle, nextState, nextStateSolver,
        distX, distY, stopScroll]
    · rw [resolvesIB_append]
      simp [resolvesIB, stopScroll_resolveEvents, hres, resolveEvents, pendIB,
        getScrollEventData]

/-- A sub-pixel request on an idle scroller resolves its own fresh
handle at once, with a null interruption cause, an unset (NaN) elapsed
time, and no frame-sample event. -/
theorem scrollNew_noop (st : ScrollState) (h : ℕ) (r : Req)
    (hres : st.scrollResolve = none)
    (helapsed : st.scrollElapsedTime = none)
    (hdur : ¬ r.duration < 0)
    (hok : exceptIsOk (solverStep st.cubicBezierSolver r.easing) = true)
    (hdx : |distX st r| < 1) (hdy : |distY st r| < 1) :
    ∃ o, scrollNew st h r = .ok o ∧ o.outcome = .noopResolved ∧
      (resolveEvents o.tr).map (fun p => (p.1, p.2.interruptedBy, p.2.elapsedTime))
        = [(h, none, none)] ∧
      (o.tr.any fun e => isScrollEvent e) = false := by
  obtain ⟨s, hs⟩ : ∃ s, solverStep st.cubicBezierSolver r.easing = .ok s := by
    cases hstep : solverStep st.cubicBezierSolver r.easing with
    | ok s => exact ⟨s, rfl⟩
    | error e2 => rw [hstep] at hok; simp [exceptIsOk] at hok
  have hdx2 : |limitCorrected r.x (st.scrollWidth - st.clientWidth) - st.scrollLeft| < 1 := by
    simpa [distX] using hdx
  have hdy2 : |limitCorrected r.y (st.scrollHeight - st.clientHeight) - st.scrollTop| < 1 := by
    simpa [distY] using hdy
  refine ⟨⟨(stopScroll
      { st with
          cubicBezierSolver := some s
          stopScrollingOnPointerDown := r.stopPD
          scrollStartingPointX := some st.scrollLeft
          scrollStartingPointY := some st.scrollTop
          scrollDistanceX :=
            some (limitCorrected r.x (st.scrollWidth - st.clientWidth) - st.scrollLeft)
          scrollDistanceY :=
            some (limitCorrected r.y (st.scrollHeight - st.clientHeight) - st.scrollTop)
          scrollResolve := some h } none).1,
    (stopScroll
      { st with
          cubicBezierSolver := some s
          stopScrollingOnPointerDown := r.stopPD
          scrollStartingPointX := some st.scrollLeft
          scrollStartingPointY := some st.scrollTop
          scrollDistanceX :=
            some (limitCorrected r.x (st.scrollWidth - st.clientWidth) - st.scrollLeft)
          scrollDistanceY :=
            some (limitCorrected r.y (st.scrollHeight - st.clientHeight) - st.scrollTop)
          scrollResolve := some h } none).2, .noopResolved⟩, ?_, rfl, ?_, ?_⟩
  · simp [scrollNew, hdur, hs, hres, hdx2, hdy2]
  · simp [stopScroll, resolveEvents, getScrollEventData, helapsed]
  · simp [stopScroll, isScrollEvent]

/-- Running an admissible sequence of animated requests resolves, in
order, the handle pending at entry and then each newly created handle
except the last, every one with the interruption cause of the source
(line 145); the last handle is left pending with the last duration
registered and the start time unset. -/
theorem runSeq_spec :
    ∀ (reqs : List Req) (st : ScrollState) (h : ℕ),
      reqs ≠ [] → Clean st → Admissible st h reqs →
      ∃ st2 tr, runSeq st h reqs = .ok (st2, tr) ∧
        resolvesIB tr = pendIB st ++
          (List.range (reqs.length - 1)).map (fun i => (h + i, some "New smooth scroll")) ∧
        st2.scrollResolve = some (h + (reqs.length - 1)) ∧
        st2.scrollStartTime = none ∧
        ∃ rl, reqs.getLast? = some rl ∧ st2.scrollDuration = some rl.duration ∧
          0 < rl.duration := by
  intro reqs
  induction reqs with
  | nil => intro st h hne _ _; exact absurd rfl hne
  | cons r rs ih =>
    intro st h _ hclean hadm
    obtain ⟨hv, hadm2⟩ := hadm
    obtain ⟨hdur, hok, hdist⟩ := hv
    obtain ⟨tr0, hrun0, hres0⟩ := scrollNew_animating st h r hclean hdur hok hdist
    cases rs with
    | nil =>
      refine ⟨nextState st h r, tr0 ++ [], ?_, ?_, ?_, ?_, r, ?_, ?_, hdur⟩
      · simp [runSeq, hrun0]
      · simp [hres0]
      · simp [nextState]
      · simp [nextState]
      · simp
      · simp [nextState]
    | cons r2 rs2 =>
      have hclean2 : Clean (nextState st h r) := Or.inl (by simp [nextState])
      obtain ⟨st2, tr2, hrun2, hresolves2, hr2, hstt2, rl, hlast, hd2, hd2pos⟩ :=
        ih (nextState st h r) (h + 1) (by simp) hclean2 hadm2
      refine ⟨st2, tr0 ++ tr2, ?_, ?_, ?_, hstt2, rl, ?_, hd2, hd2pos⟩
      · have e1 : runSeq st h (r :: r2 :: rs2) =
            match scrollNew st h r with
            | .error e => .error e
            | .ok o =>
              match runSeq o.st (h + 1) (r2 :: rs2) with
              | .error e => .error e
              | .ok (st3, tr3) => .ok (st3, o.tr ++ tr3) := rfl
        rw [e1, hrun0]
        dsimp only
        rw [hrun2]
      · rw [resolvesIB_append, hres0, hresolves2]
        have hpend : pendIB (nextState st h r) = [(h, some "New smooth scroll")] := by
          simp [pendIB, nextState]
        rw [hpend]
        have hlen : (r :: r2 :: rs2).length - 1 = rs2.length + 1 := by simp
        rw [hlen]
        have hlen2 : (r2 :: rs2).length - 1 = rs2.length := by simp
        rw [hlen2]
        have hfun : ((fun i => (h + i, (some "New smooth scroll" : Option String))) ∘
            Nat.succ) = (fun i => (h + 1 + i, some "New smooth scroll")) := by
          funext i
          simp only [Function.comp, Prod.mk.injEq, and_true]
          omega
        rw [List.range_succ_eq_map, List.map_cons, List.map_map, hfun]
        simp
      · rw [hr2]
        congr 1
        simp
        omega
      · rw [List.getLast?_cons_cons]
        exact hlast

/-! ## Concrete evaluation helpers -/

theorem solverStep_ease_none : solverStep none (.str "ease") = .ok easeSolver := by
  have h110 : |(1:ℚ)/10| < yLimit := by
    rw [abs_of_nonneg (by norm_num)]
    norm_num [yLimit]
  have h1 : (1:ℚ) < yLimit := by norm_num [yLimit]
  norm_num [solverStep, resolveEasing, easingKeywordMap, mkSolverFromList,
    yLimiter, h110, h1, easeSolver]

theorem solverStep_ease_cached : solverStep (some easeSolver) (.str "ease") = .ok easeSolver := by
  norm_num [solverStep, resolveEasing, easingKeywordMap, ctrlPtsMatch,
    easeSolver, mkFromPoints]

theorem clean_idle : Clean idleState := Or.inr ⟨rfl, rfl, rfl, rfl⟩

theorem validReq_A : ValidReq idleState reqA := by
  refine ⟨by norm_num [reqA], ?_, Or.inl ?_⟩
  · rw [show idleState.cubicBezierSolver = none from rfl,
      show reqA.easing = EasingArg.str "ease" from rfl, solverStep_ease_none]
    rfl
  · norm_num [distX, idleState, reqA, limitCorrected]

theorem nextA_solver :
    (nextState idleState 0 reqA).cubicBezierSolver = some easeSolver := by
  simp only [nextState]
  unfold nextStateSolver
  rw [show idleState.cubicBezierSolver = none from rfl,
    show reqA.easing = EasingArg.str "ease" from rfl, solverStep_ease_none]

theorem validReq_B : ValidReq (nextState idleState 0 reqA) reqB := by
  refine ⟨by norm_num [reqB], ?_, Or.inl ?_⟩
  · rw [nextA_solver, show reqB.easing = EasingArg.str "ease" from rfl,
      solverStep_ease_cached]
    rfl
  · have h1 : (nextState idleState 0 reqA).scrollLeft = 0 := rfl
    have h2 : (nextState idleState 0 reqA).scrollWidth = 200 := rfl
    have h3 : (nextState idleState 0 reqA).clientWidth = 100 := rfl
    norm_num [distX, h1, h2, h3, reqB, limitCorrected]

theorem admissible_AB : Admissible idleState 0 [reqA, reqB] :=
  ⟨validReq_A, validReq_B, trivial⟩

/-! ## Claim C1 -/

/-- Claim C1 (amended): for any nonempty admissible sequence of N
animated requests (duration above 0, at least one axis distance of
magnitude at least 1 at each step) on an idle scroller, followed by a
first driver tick at a positive timestamp and a second tick past the
last duration, exactly N pending-completion handles are resolved in
total, each exactly once: handles 0..N-2 with interruptedBy
"New smooth scroll" (the cause string of source line 145) and the last
handle with interruptedBy null, no handle left pending. -/
theorem c1_exactly_once (st : ScrollState) (reqs : List Req) (t1 t2 : ℚ)
    (f : ℚ → ℚ → ℚ)
    (hidle : st.scrollResolve = none) (hclean : Clean st)
    (hne : reqs ≠ []) (hadm : Admissible st 0 reqs)
    (ht1 : 0 < t1)
    (hlate : ∀ rl, reqs.getLast? = some rl → t1 + rl.duration ≤ t2) :
    ∃ st2 tr,
      runSeq st 0 reqs = .ok (st2, tr) ∧
      (tick st2 t1 f).finished = false ∧
      (tick (tick st2 t1 f).st t2 f).finished = true ∧
      (tick (tick st2 t1 f).st t2 f).st.scrollResolve = none ∧
      resolvesIB (tr ++ (tick st2 t1 f).tr ++ (tick (tick st2 t1 f).st t2 f).tr) =
        (List.range reqs.length).map
          (fun i => (i, if i = reqs.length - 1 then none
            else some "New smooth scroll")) := by
  obtain ⟨st2, tr, hrun, hres, hr2, hstt, rl, hlastq, hd, hdpos⟩ :=
    runSeq_spec reqs st 0 hne hclean hadm
  have hlatch : truthyNum st2.scrollStartTime = false := by rw [hstt]; rfl
  obtain ⟨hf1, hres1, hstt1, hr1, hdur1⟩ := tick_first st2 t1 f hlatch
  have hk1 : (tick st2 t1 f).st.scrollResolve = some (0 + (reqs.length - 1)) := by
    rw [hr1, hr2]
  have hd1 : (tick st2 t1 f).st.scrollDuration = some rl.duration := by
    rw [hdur1, hd]
  obtain ⟨hf2, hres2, hr3⟩ := tick_finish (tick st2 t1 f).st t2 f t1 rl.duration
    (0 + (reqs.length - 1)) hstt1 (ne_of_gt ht1) hd1 hdpos hk1 (hlate rl hlastq)
  refine ⟨st2, tr, hrun, hf1, hf2, hr3, ?_⟩
  rw [resolvesIB_append, resolvesIB_append, hres, hres1, hres2]
  have hpend : pendIB st = [] := by simp [pendIB, hidle]
  rw [hpend]
  have hNpos : 1 ≤ reqs.length := List.length_pos.2 hne
  have hN1 : reqs.length - 1 + 1 = reqs.length := by omega
  have hrange : List.range reqs.length =
      List.range (reqs.length - 1) ++ [reqs.length - 1] := by
    conv_lhs => rw [← hN1]
    rw [List.range_succ]
  rw [hrange, List.map_append]
  have hmap : (List.range (reqs.length - 1)).map
      (fun i => (i, if i = reqs.length - 1 then none
        else (some "New smooth scroll" : Option String))) =
      (List.range (reqs.length - 1)).map
        (fun i => (i, some "New smooth scroll")) := by
    apply List.map_congr_left
    intro i hi
    rw [List.mem_range] at hi
    have hne2 : i ≠ reqs.length - 1 := by omega
    simp [hne2]
  rw [hmap]
  simp

/-- Witness for C1 at two concrete requests on a fresh scroller, ticks
at 5 and 1000. -/
theorem c1_witness :
    idleState.scrollResolve = none ∧ Clean idleState ∧
    ([reqA, reqB] : List Req) ≠ [] ∧ Admissible idleState 0 [reqA, reqB] ∧
    (0:ℚ) < 5 ∧
    (∀ rl, ([reqA, reqB] : List Req).getLast? = some rl → 5 + rl.duration ≤ 1000) ∧
    (∃ st2 tr,
      runSeq idleState 0 [reqA, reqB] = .ok (st2, tr) ∧
      (tick st2 5 (fun a _ => a)).finished = false ∧
      (tick (tick st2 5 (fun a _ => a)).st 1000 (fun a _ => a)).finished = true ∧
      (tick (tick st2 5 (fun a _ => a)).st 1000 (fun a _ => a)).st.scrollResolve = none ∧
      resolvesIB (tr ++ (tick st2 5 (fun a _ => a)).tr ++
          (tick (tick st2 5 (fun a _ => a)).st 1000 (fun a _ => a)).tr) =
        (List.range ([reqA, reqB] : List Req).length).map
          (fun i => (i, if i = ([reqA, reqB] : List Req).length - 1 then none
            else some "New smooth scroll"))) := by
  have hlate : ∀ rl, ([reqA, reqB] : List Req).getLast? = some rl →
      5 + rl.duration ≤ 1000 := by
    intro rl hl
    simp at hl
    rw [← hl]
    norm_num [reqB]
  exact ⟨rfl, clean_idle, by simp, admissible_AB, by norm_num, hlate,
    c1_exactly_once idleState [reqA, reqB] 5 1000 (fun a _ => a) rfl clean_idle
      (by simp) admissible_AB (by norm_num) hlate⟩

/-- Counterexample for C1 as stated: the interrupted resolutions carry
the cause string "New smooth scroll", not "new scroll request". -/
theorem c1_counterexample :
    c1cexResolves = [(0, some "New smooth scroll")] ∧
    (some "New smooth scroll" : Option String) ≠ some "new scroll request" := by
  obtain ⟨st2, tr, hrun, hres, _⟩ :=
    runSeq_spec [reqA, reqB] idleState 0 (by simp) clean_idle admissible_AB
  constructor
  · unfold c1cexResolves
    rw [hrun]
    dsimp only
    rw [hres]
    simp [pendIB, idleState, List.range_succ]
  · decide

/-! ## Claim C3 -/

/-- Claim C3 (amended): a request whose clamped distance has magnitude
below 1 on both axes finalizes immediately as completed (interruptedBy
null) with no frame-sample report, but the resolved elapsedTime is the
unset NaN sentinel (modelled none), not 0: the no-op path resolves
before any tick ever sets scrollElapsedTime. -/
theorem c3_noop_immediate (st : ScrollState) (h : ℕ) (r : Req)
    (hres : st.scrollResolve = none)
    (helapsed : st.scrollElapsedTime = none)
    (hdur : 0 ≤ r.duration)
    (hok : exceptIsOk (solverStep st.cubicBezierSolver r.easing) = true)
    (hdx : |distX st r| < 1) (hdy : |distY st r| < 1) :
    ∃ o, scrollNew st h r = .ok o ∧ o.outcome = .noopResolved ∧
      (resolveEvents o.tr).map (fun p => (p.1, p.2.interruptedBy, p.2.elapsedTime))
        = [(h, none, none)] ∧
      (o.tr.any fun e => isScrollEvent e) = false :=
  scrollNew_noop st h r hres helapsed (not_lt.2 hdur) hok hdx hdy

/-- Witness for C3 at a request to the current offset on a fresh
scroller. -/
theorem c3_witness :
    idleState.scrollResolve = none ∧ idleState.scrollElapsedTime = none ∧
    (0:ℚ) ≤ noopReq.duration ∧
    exceptIsOk (solverStep idleState.cubicBezierSolver noopReq.easing) = true ∧
    |distX idleState noopReq| < 1 ∧ |distY idleState noopReq| < 1 ∧
    (∃ o, scrollNew idleState 0 noopReq = .ok o ∧ o.outcome = .noopResolved ∧
      (resolveEvents o.tr).map (fun p => (p.1, p.2.interruptedBy, p.2.elapsedTime))
        = [(0, none, none)] ∧
      (o.tr.any fun e => isScrollEvent e) = false) := by
  have hok : exceptIsOk (solverStep idleState.cubicBezierSolver noopReq.easing) = true := by
    rw [show idleState.cubicBezierSolver = none from rfl,
      show noopReq.easing = EasingArg.str "ease" from rfl, solverStep_ease_none]
    rfl
  have hdx : |distX idleState noopReq| < 1 := by
    norm_num [distX, idleState, noopReq, limitCorrected]
  have hdy : |distY idleState noopReq| < 1 := by
    norm_num [distY, idleState, noopReq, limitCorrected]
  exact ⟨rfl, rfl, by norm_num [noopReq], hok, hdx, hdy,
    c3_noop_immediate idleState 0 noopReq rfl rfl (by norm_num [noopReq]) hok hdx hdy⟩

/-- Counterexample for C3 as stated: the no-op resolution carries
elapsedTime unset (NaN, modelled none), which is not 0. -/
theorem c3_counterexample :
    c3cexResolves = [(0, none, none)] ∧ ((none : Option ℚ) ≠ some 0) := by
  have hok : exceptIsOk (solverStep idleState.cubicBezierSolver noopReq.easing) = true := by
    rw [show idleState.cubicBezierSolver = none from rfl,
      show noopReq.easing = EasingArg.str "ease" from rfl, solverStep_ease_none]
    rfl
  have hdx : |distX idleState noopReq| < 1 := by
    norm_num [distX, idleState, noopReq, limitCorrected]
  have hdy : |distY idleState noopReq| < 1 := by
    norm_num [distY, idleState, noopReq, limitCorrected]
  obtain ⟨o, ho, _, hmap, _⟩ :=
    scrollNew_noop idleState 0 noopReq rfl rfl (by norm_num [noopReq]) hok hdx hdy
  refine ⟨?_, by simp⟩
  unfold c3cexResolves
  rw [ho]
  dsimp only
  exact hmap

/-! ## Claim C6 -/

/-- Claim C6 exhibit (code bug): the session is started by a request
and receives its first tick at timestamp 0, a legal driver timestamp.
The start time latches to 0, but because line 198 tests the field for
truthiness and 0 is falsy, the next tick at timestamp 16 latches again
(start time becomes 16) and dispatches a second start-of-scroll
notification, contradicting the exactly-once latch of the claim. -/
theorem c6_bug_exhibit :
    c6Tick1.st.scrollStartTime = some 0 ∧
    c6Tick2.st.scrollStartTime = some 16 ∧
    c6Tick1.tr.countP (fun e => isScrollStartEvent e) = 1 ∧
    c6Tick2.tr.countP (fun e => isScrollStartEvent e) = 1 := by
  obtain ⟨hdurA, hokA, hdistA⟩ := validReq_A
  obtain ⟨trA, hrunA, _⟩ :=
    scrollNew_animating idleState 0 reqA clean_idle hdurA hokA hdistA
  have h1 : c6Tick1 = tick (nextState idleState 0 reqA) 0 (fun a _ => a) := by
    unfold c6Tick1
    rw [hrunA]
  have hlatch1 : truthyNum (nextState idleState 0 reqA).scrollStartTime = false := rfl
  obtain ⟨_, _, hstt1, _, _⟩ :=
    tick_first (nextState idleState 0 reqA) 0 (fun a _ => a) hlatch1
  have hcount1 := tick_latch_startCount (nextState idleState 0 reqA) 0 (fun a _ => a) hlatch1
  have hstt1' : c6Tick1.st.scrollStartTime = some 0 := by rw [h1]; exact hstt1
  have hlatch2 : truthyNum c6Tick1.st.scrollStartTime = false := by
    rw [hstt1']
    simp [truthyNum]
  obtain ⟨_, _, hstt2, _, _⟩ := tick_first c6Tick1.st 16 (fun a _ => a) hlatch2
  have hcount2 := tick_latch_startCount c6Tick1.st 16 (fun a _ => a) hlatch2
  exact ⟨hstt1', hstt2, by rw [h1]; exact hcount1, hcount2⟩

/-! ## Claims C7 and C8: concrete instances -/

/-- Counterexample for C7 as stated: on a mid-session tick the single
frame-sample event is the first element of the trace, emitted before
the offset write, and it carries the ending point of the previous tick
(25), not the offset this tick writes (50). -/
theorem c7_counterexample :
    c7Tick.tr = [Ev.scrollEvent (getScrollEventData c7State none),
      Ev.writeLeft 50, Ev.requestFrame] ∧
    (getScrollEventData c7State none).endPoint = (some 25, some 0) ∧
    c7Tick.st.scrollLeft = 50 ∧
    (getScrollEventData c7State none).endPoint ≠
      (some c7Tick.st.scrollLeft, some c7Tick.st.scrollTop) := by
  refine ⟨?_, ?_, ?_, ?_⟩ <;>
    norm_num [c7Tick, tick, c7State, truthyNum, tickWrites, getScrollEventData,
      min_def]

/-- Witness for C8 at a request with a negative duration on a fresh
scroller. -/
theorem c8_witness :
    (ScrollErr.mk VErr.invalidDuration idleState []).st = idleState ∧
    (ScrollErr.mk VErr.invalidDuration idleState []).tr = [] :=
  c8_validation_error idleState 0 badReq ⟨VErr.invalidDuration, idleState, []⟩
    (by norm_num [scrollNew, badReq])

end SmoothScroller
